import Mathlib

/-!
Shallow embedding of the DocumentSimilarity vector-store core
(src/models/vec.py, src/vectorstore/vectordb.py, src/vectorstore/simplevec.py,
src/vectorstore/measurefactory.py, src/vectorstore/measures/).

Modelling conventions:
* Python floats are modelled by `ℚ` (the claims under study concern control
  flow, ordering and data flow, not floating-point rounding).
* `uuid.UUID` values are modelled by `Nat`; `uuid.uuid4()` calls are modelled
  by threading an explicit `fresh : Nat` parameter into every code path that
  constructs a `Vector`.
* A Python `dict` is modelled by an insertion-ordered association list:
  assignment to an existing key updates the value in place, assignment to a
  new key appends at the end, exactly like CPython dicts.
* A raised Python exception is modelled by returning the exception as a value
  (`PyError`) next to the state the object had at raise time; `None` results
  are `Option.none`; `logger.warning` calls are collected in a `List String`.
* Python string rendering inside f-strings is modelled with `toString` and
  explicit concatenation; the apostrophes of `repr`-style rendering are the
  escaped character `\x27`.
-/

namespace DocSim

/-- Python exception values raised by the modelled code paths. -/
inductive PyError where
  | typeError (msg : String)
  | valueError (msg : String)
  | keyError (key : Nat)
  | attributeError (msg : String)
deriving DecidableEq

/-- Model of `models.vec.Vector`: an embedding (numpy array of numbers),
optional source text `data`, optional opaque `metadata` mapping, the
`uuid.uuid4()`-generated identity `vec_id`, and the derived `vector_dim`. -/
structure Vector where
  embedding : List ℚ
  data : Option String
  metadata : Option (List (String × String))
  vec_id : Nat
  vector_dim : Nat
deriving DecidableEq

/-- Model of `Vector.__init__` on an already-numeric embedding (the
`ArrayLike` path of `set_embedding`): stores the embedding, `data` and
`metadata`, draws a fresh id (`fresh` models the `uuid.uuid4()` call) and
derives `vector_dim = len(embedding)`. -/
def Vector.init (fresh : Nat) (e : List ℚ) (d : Option String)
    (md : Option (List (String × String))) : Vector :=
  { embedding := e, data := d, metadata := md, vec_id := fresh,
    vector_dim := e.length }

/-- Model of `Vector.dot`: `self.embedding.dot(other.embedding)`, the sum of
elementwise products (numpy requires equal shapes; `zipWith` agrees with it on
equal-length inputs, which is the only case the claims quantify over). -/
def Vector.dot (a b : Vector) : ℚ :=
  (List.zipWith (fun x y => x * y) a.embedding b.embedding).sum

/-- Model of `Vector.__add__`: a brand-new `Vector` built from the elementwise
sum, carrying `data=self.data` (and hence fresh id, no metadata). -/
def Vector.add (a b : Vector) (fresh : Nat) : Vector :=
  Vector.init fresh (List.zipWith (fun x y => x + y) a.embedding b.embedding)
    a.data none

/-- Model of `Vector.__sub__`: elementwise difference, `data=self.data`. -/
def Vector.sub (a b : Vector) (fresh : Nat) : Vector :=
  Vector.init fresh (List.zipWith (fun x y => x - y) a.embedding b.embedding)
    a.data none

/-- Model of `Vector.__mul__` on a numeric scalar (the non-numeric branch
raises `TypeError` before any `Vector` is built): elementwise scaling,
`data=self.data`. -/
def Vector.smul (a : Vector) (c : ℚ) (fresh : Nat) : Vector :=
  Vector.init fresh (a.embedding.map (fun x => x * c)) a.data none

/-- Model of `np.cross` on two 3-dimensional embeddings; on other shapes the
call does not produce a 3-vector (numpy raises), modelled as `none`. -/
def crossList : List ℚ → List ℚ → Option (List ℚ)
  | [a1, a2, a3], [b1, b2, b3] =>
      some [a2 * b3 - a3 * b2, a3 * b1 - a1 * b3, a1 * b2 - a2 * b1]
  | _, _ => none

/-- Model of `Vector.cross`: a new `Vector` over `np.cross` of the embeddings,
carrying `data=self.data`. -/
def Vector.cross (a b : Vector) (fresh : Nat) : Option Vector :=
  (crossList a.embedding b.embedding).map (fun e => Vector.init fresh e a.data none)

/-- A similarity measure as `_sim_search` consumes it (duck-typed in the
source: any object with `calculate` and `sort_func`):
`measures/measure.py:AbstractMeasure`. -/
structure AbstractMeasure where
  calculate : Vector → Vector → ℚ
  sort_func : ℚ → ℚ

/-- Model of `measures/dot.py:DotProductDistance` as an `AbstractMeasure`
value: `calculate = vec1.dot(vec2)`, `sort_func x = -x`. -/
def DotProductDistance : AbstractMeasure :=
  { calculate := fun v1 v2 => v1.dot v2, sort_func := fun x => -x }

/-- The three measure-class instances constructed once in the module-level
`MeasureFactory.MEASURES` dict (`measurefactory.py` lines 10-14).  Each
constructor denotes the single shared Python object of the corresponding
class; the factory only hands these values out, it never builds new ones. -/
inductive RegisteredMeasure where
  | EuclideanDistance
  | DotProductDistance
  | CosineSimilarity
deriving DecidableEq

/-- The `sort_func` method of each registered instance, translated from
`measures/euclidean.py`, `measures/dot.py`, `measures/cosine.py`:
identity for Euclidean distance, negation for dot product and cosine. -/
def RegisteredMeasure.sort_func : RegisteredMeasure → ℚ → ℚ
  | .EuclideanDistance => fun x => x
  | .DotProductDistance => fun x => -x
  | .CosineSimilarity => fun x => -x

/-- Model of Python `dict.get(key)` on an insertion-ordered assoc list. -/
def dictGet {κ β : Type} [DecidableEq κ] : List (κ × β) → κ → Option β
  | [], _ => none
  | (k0, v0) :: rest, k => if k0 = k then some v0 else dictGet rest k

/-- Model of Python `d[key] = value`: update in place if the key exists,
append otherwise (CPython dicts preserve insertion order). -/
def dictInsert {β : Type} : List (Nat × β) → Nat → β → List (Nat × β)
  | [], k, v => [(k, v)]
  | (k0, v0) :: rest, k, v =>
      if k0 = k then (k, v) :: rest else (k0, v0) :: dictInsert rest k v

/-- Model of Python `del d[key]` when the key is present: drop the (unique)
entry with that key, keeping the order of the remaining entries. -/
def dictRemove {β : Type} : List (Nat × β) → Nat → List (Nat × β)
  | [], _ => []
  | (k0, v0) :: rest, k =>
      if k0 = k then rest else (k0, v0) :: dictRemove rest k

/-- Python `str(list_of_keys)` rendering, as used in the factory's error
message: `['euclidean', 'dot', 'cosine']`. -/
def pyListRepr (xs : List String) : String :=
  "[" ++ String.intercalate ", " (xs.map (fun s => "\x27" ++ s ++ "\x27")) ++ "]"

namespace MeasureFactory

/-- Model of the class attribute `MeasureFactory.MEASURES`: a dict built once
at class-definition time, mapping each name to its pre-built instance. -/
def MEASURES : List (String × RegisteredMeasure) :=
  [("euclidean", RegisteredMeasure.EuclideanDistance),
   ("dot", RegisteredMeasure.DotProductDistance),
   ("cosine", RegisteredMeasure.CosineSimilarity)]

/-- Model of `MeasureFactory.get_measure`: `MEASURES.get(name)`; on a miss it
raises `ValueError(f"Measure '{name}' does not exist. Please choose from
{list(MEASURES.keys())}")`. -/
def get_measure (name : String) : Except String RegisteredMeasure :=
  match dictGet MEASURES name with
  | some m => Except.ok m
  | none =>
      Except.error ("Measure \x27" ++ name ++ "\x27 does not exist. " ++
        "Please choose from " ++ pyListRepr (MEASURES.map Prod.fst))

end MeasureFactory

/-- Model of `simplevec.py:SimpleVectorDatabase`: the `data` dict keyed by
`vec_id` plus the configured `vector_dim`. -/
structure SimpleVectorDatabase where
  data : List (Nat × Vector)
  vector_dim : Nat
deriving DecidableEq

namespace SimpleVectorDatabase

/-- `self.data.values()` in iteration order. -/
def values (db : SimpleVectorDatabase) : List Vector := db.data.map Prod.snd

/-- The warning text `f"Vector {vec_id} not found in database."` (with the id
rendered via `toString`). -/
def notFoundMsg (i : Nat) : String :=
  "Vector " ++ toString i ++ " not found in database."

/-- Model of `SimpleVectorDatabase._get_vector`: `self.data.get(vec_id, None)`,
logging a warning when the result is `None`; returns the optional vector
together with the warnings it logged. -/
def _get_vector (db : SimpleVectorDatabase) (vec_id : Nat) :
    Option Vector × List String :=
  match dictGet db.data vec_id with
  | some v => (some v, [])
  | none => (none, [notFoundMsg vec_id])

/-- Model of `AbstractVectorDatabase.get_vector` on an already-typed id (the
string form is parsed with `uuid.UUID` into the same id first and behaves
identically for well-formed strings). -/
def get_vector (db : SimpleVectorDatabase) (vec_id : Nat) :
    Option Vector × List String :=
  db._get_vector vec_id

/-- Model of `SimpleVectorDatabase._upsert`: raise
`ValueError(f"Vector dimension {vector.vector_dim} does not match database
dimension {self.vector_dim}.")` on a dimension mismatch, otherwise write
`self.data[vector.vec_id] = vector`.  The returned pair is (state at return or
raise time, raised exception if any). -/
def _upsert (db : SimpleVectorDatabase) (v : Vector) :
    SimpleVectorDatabase × Option PyError :=
  if v.vector_dim ≠ db.vector_dim then
    (db, some (PyError.valueError ("Vector dimension " ++ toString v.vector_dim
      ++ " does not match database dimension " ++ toString db.vector_dim ++ ".")))
  else
    ({ db with data := dictInsert db.data v.vec_id v }, none)

/-- Model of `SimpleVectorDatabase._delete`: `del self.data[vector.vec_id]`,
which raises `KeyError` when the key is absent and leaves the dict unchanged
in that case. -/
def _delete (db : SimpleVectorDatabase) (v : Vector) :
    SimpleVectorDatabase × Option PyError :=
  match dictGet db.data v.vec_id with
  | some _ => ({ db with data := dictRemove db.data v.vec_id }, none)
  | none => (db, some (PyError.keyError v.vec_id))

end SimpleVectorDatabase

/-- The runtime type of an argument handed to `upsert`/`bulk_upsert`: a
`Vector` instance, an `ArrayLike` raw numeric sequence, or anything else
(carrying its Python type name for the error message). -/
inductive UpsertArg where
  | vec (v : Vector)
  | arr (xs : List ℚ)
  | other (typeName : String)
deriving DecidableEq

namespace SimpleVectorDatabase

/-- Model of `AbstractVectorDatabase.upsert`: wrap an `ArrayLike` into a fresh
`Vector`, reject any other non-`Vector` with `TypeError`, then delegate to
`_upsert`. -/
def upsert (db : SimpleVectorDatabase) (arg : UpsertArg) (fresh : Nat) :
    SimpleVectorDatabase × Option PyError :=
  match arg with
  | .vec v => db._upsert v
  | .arr xs => db._upsert (Vector.init fresh xs none none)
  | .other t => (db, some (PyError.typeError ("Invalid type " ++ t)))

/-- The first element of the list that fails `bulk_upsert`'s validation loop
(neither `Vector` nor `ArrayLike`), if any. -/
def firstBadType : List UpsertArg → Option String
  | [] => none
  | UpsertArg.other t :: _ => some t
  | _ :: rest => firstBadType rest

/-- The second loop of `bulk_upsert`: `for vector in vectors:
self._upsert(vector)` over the ORIGINAL list elements.  The validation loop
rebound its wrapped `Vector` only to a loop-local variable, so an `ArrayLike`
element reaches `_upsert` unwrapped here and `vector.vector_dim` raises
`AttributeError`; a `Vector` element is upserted and its `ValueError` (if
any) propagates, aborting the loop with all earlier writes kept. -/
def bulkInsertLoop : SimpleVectorDatabase → List UpsertArg →
    SimpleVectorDatabase × Option PyError
  | db, [] => (db, none)
  | db, UpsertArg.vec v :: rest =>
      match db._upsert v with
      | (db2, none) => bulkInsertLoop db2 rest
      | (db2, some e) => (db2, some e)
  | db, UpsertArg.arr _ :: _ =>
      (db, some (PyError.attributeError
        "list object has no attribute vector_dim"))
  | db, UpsertArg.other t :: _ =>
      (db, some (PyError.attributeError
        (t ++ " object has no attribute vector_dim")))

/-- Model of `AbstractVectorDatabase.bulk_upsert` on a list argument: first
the pure validation pass (raising `TypeError` on the first element that is
neither `Vector` nor `ArrayLike`, before any mutation), then the insert loop
over the original elements. -/
def bulk_upsert (db : SimpleVectorDatabase) (args : List UpsertArg) :
    SimpleVectorDatabase × Option PyError :=
  match firstBadType args with
  | some t => (db, some (PyError.typeError ("Invalid type " ++ t)))
  | none => bulkInsertLoop db args

end SimpleVectorDatabase

/-- The runtime type of an argument handed to `delete`: a `Vector`, a typed
`uuid.UUID` identifier, or the string form of that identifier (`str i` stands
for the canonical rendering of id `i`; `get_vector` parses it back to `i`). -/
inductive DeleteArg where
  | vec (v : Vector)
  | uuid (i : Nat)
  | str (i : Nat)
deriving DecidableEq

namespace SimpleVectorDatabase

/-- The identifier branch of `delete`: resolve through `get_vector` (which
warns on a miss), warn again and return with no effect if resolution produced
`None`, otherwise call `_delete`. -/
def deleteById (db : SimpleVectorDatabase) (i : Nat) :
    SimpleVectorDatabase × List String × Option PyError :=
  match db.get_vector i with
  | (some v, w) =>
      match db._delete v with
      | (db2, none) => (db2, w, none)
      | (db2, some e) => (db2, w, some e)
  | (none, w) => (db, w ++ [notFoundMsg i], none)

/-- Model of `AbstractVectorDatabase.delete`: a `uuid`/`str` argument is
resolved first; a `Vector` argument is passed to `_delete` directly (the
resolution `if` does not fire for it, so a `Vector` absent from the store
reaches `del self.data[...]`).  Returns (state, warnings, raised error). -/
def delete (db : SimpleVectorDatabase) (arg : DeleteArg) :
    SimpleVectorDatabase × List String × Option PyError :=
  match arg with
  | .uuid i => db.deleteById i
  | .str i => db.deleteById i
  | .vec v =>
      match db._delete v with
      | (db2, none) => (db2, [], none)
      | (db2, some e) => (db2, [], some e)

end SimpleVectorDatabase

/-- One entry of the list `_sim_search` returns: the
`{"vector": vec, "score": score}` record built for each stored candidate. -/
structure SearchHit where
  vector : Vector
  score : ℚ
deriving DecidableEq

namespace SimpleVectorDatabase

/-- The loop `for vec in self.data.values(): similar[vec.vec_id] =
{"vector": vec, "score": measure.calculate(vector, vec)}` building the
`similar` dict. -/
def buildSimilar (q : Vector) (m : AbstractMeasure) :
    List Vector → List (Nat × SearchHit) → List (Nat × SearchHit)
  | [], acc => acc
  | v :: vs, acc =>
      buildSimilar q m vs
        (dictInsert acc v.vec_id { vector := v, score := m.calculate q v })

/-- Model of `SimpleVectorDatabase._sim_search`: build the `similar` dict,
sort its values by `measure.sort_func(x["score"])` with Python's stable
ascending `sorted` (modelled by the stable `List.insertionSort`), and return
the slice `[:k]`. -/
def _sim_search (db : SimpleVectorDatabase) (q : Vector) (m : AbstractMeasure)
    (k : Nat) : List SearchHit :=
  (List.insertionSort (fun a b => m.sort_func a.score ≤ m.sort_func b.score)
    ((buildSimilar q m db.values []).map Prod.snd)).take k

/-- Model of `SimpleVectorDatabase._get_random_vector` with the result of
`random.randint(0, len(self.data) - 1)` passed in as `draw`: raise
`ValueError("Database is empty.")` on an empty store, otherwise index
`list(self.data.values())[draw]` (Python raises `IndexError` out of range;
`randint` always stays in range). -/
def _get_random_vector (db : SimpleVectorDatabase) (draw : Nat) :
    Except String Vector :=
  if db.data.length = 0 then Except.error "Database is empty."
  else
    match db.values[draw]? with
    | some v => Except.ok v
    | none => Except.error "IndexError"

end SimpleVectorDatabase

/-- The representation invariant every store reachable through the public API
satisfies: the dict's keys are pairwise distinct (a dict property) and each
entry is keyed by its vector's own `vec_id` (what `_upsert` writes). -/
def WellFormed (db : SimpleVectorDatabase) : Prop :=
  (db.data.map Prod.fst).Nodup ∧ ∀ p ∈ db.data, p.1 = p.2.vec_id

instance (db : SimpleVectorDatabase) : Decidable (WellFormed db) := by
  unfold WellFormed; infer_instance

/-! Support lemmas about the dict model and the search pipeline. -/

lemma dictGet_dictInsert_self {β : Type} (d : List (Nat × β)) (k : Nat) (v : β) :
    dictGet (dictInsert d k v) k = some v := by
  induction d with
  | nil => simp [dictInsert, dictGet]
  | cons p rest ih =>
      obtain ⟨k0, v0⟩ := p
      by_cases h : k0 = k <;> simp [dictInsert, dictGet, h, ih]

lemma dictInsert_of_not_mem {β : Type} (d : List (Nat × β)) (k : Nat) (v : β)
    (h : k ∉ d.map Prod.fst) : dictInsert d k v = d ++ [(k, v)] := by
  induction d with
  | nil => simp [dictInsert]
  | cons p rest ih =>
      obtain ⟨k0, v0⟩ := p
      simp only [List.map_cons, List.mem_cons] at h
      push_neg at h
      simp [dictInsert, Ne.symm h.1, ih h.2]

lemma buildSimilar_append (q : Vector) (m : AbstractMeasure) :
    ∀ (vs : List Vector) (acc : List (Nat × SearchHit)),
      (vs.map Vector.vec_id).Nodup →
      (∀ v ∈ vs, v.vec_id ∉ acc.map Prod.fst) →
      SimpleVectorDatabase.buildSimilar q m vs acc =
        acc ++ vs.map (fun v => (v.vec_id,
          { vector := v, score := m.calculate q v })) := by
  intro vs
  induction vs with
  | nil =>
      intro acc _ _
      simp [SimpleVectorDatabase.buildSimilar]
  | cons v vs ih =>
      intro acc hnd hacc
      have hv : v.vec_id ∉ acc.map Prod.fst := hacc v (List.mem_cons_self v vs)
      have hnd1 : (v.vec_id :: vs.map Vector.vec_id).Nodup := by simpa using hnd
      have hnd0 := List.nodup_cons.mp hnd1
      have hstep := ih (acc ++ [(v.vec_id, { vector := v, score := m.calculate q v })])
        hnd0.2 ?_
      · rw [SimpleVectorDatabase.buildSimilar, dictInsert_of_not_mem _ _ _ hv, hstep]
        simp
      · intro w hw
        simp only [List.map_append, List.mem_append, List.map_cons, List.map_nil]
        push_neg
        refine ⟨hacc w (List.mem_cons_of_mem v hw), ?_⟩
        intro hcontra
        simp only [List.mem_singleton] at hcontra
        exact hnd0.1 (hcontra ▸ List.mem_map_of_mem Vector.vec_id hw)

lemma wellFormed_values_nodup {db : SimpleVectorDatabase} (h : WellFormed db) :
    (db.values.map Vector.vec_id).Nodup := by
  have h2 : db.data.map Prod.fst = db.values.map Vector.vec_id := by
    unfold SimpleVectorDatabase.values
    rw [List.map_map]
    exact List.map_congr_left h.2
  rw [← h2]
  exact h.1

lemma sim_search_eq (db : SimpleVectorDatabase) (q : Vector)
    (m : AbstractMeasure) (k : Nat) (hwf : WellFormed db) :
    db._sim_search q m k =
      (List.insertionSort (fun a b => m.sort_func a.score ≤ m.sort_func b.score)
        (db.values.map (fun v => { vector := v, score := m.calculate q v }))).take k := by
  unfold SimpleVectorDatabase._sim_search
  rw [buildSimilar_append q m db.values [] (wellFormed_values_nodup hwf) (by simp)]
  rw [List.nil_append, List.map_map]
  rfl

lemma exists_list_three (l : List ℚ) (h : l.length = 3) :
    ∃ x y z, l = [x, y, z] := by
  match l with
  | [x, y, z] => exact ⟨x, y, z, rfl⟩
  | [] => simp at h
  | [_] => simp at h
  | [_, _] => simp at h
  | _ :: _ :: _ :: _ :: _ => simp at h

/-! Claim theorems. -/

/-- Claim C3: for every database with configured dimension and every upsert of
a `Vector` whose `vector_dim` differs from it, the call fails with a
`ValueError` whose message names both the vector's and the database's
dimension, and the stored contents at raise time are exactly the contents
before the call. -/
theorem upsert_dimension_mismatch_fails_unchanged (db : SimpleVectorDatabase)
    (v : Vector) (fresh : Nat) (h : v.vector_dim ≠ db.vector_dim) :
    db.upsert (UpsertArg.vec v) fresh =
      (db, some (PyError.valueError ("Vector dimension " ++ toString v.vector_dim
        ++ " does not match database dimension " ++ toString db.vector_dim ++ "."))) := by
  simp [SimpleVectorDatabase.upsert, SimpleVectorDatabase._upsert, h]

/-- Witness for C3 at a concrete input: a 3-dimensional vector against a
2-dimensional database. -/
theorem upsert_dimension_mismatch_fails_unchanged_witness :
    (Vector.init 4 [1, 2, 3] none none).vector_dim ≠
      (SimpleVectorDatabase.mk [] 2).vector_dim
    ∧ (SimpleVectorDatabase.mk [] 2).upsert
        (UpsertArg.vec (Vector.init 4 [1, 2, 3] none none)) 0 =
      (SimpleVectorDatabase.mk [] 2, some (PyError.valueError
        ("Vector dimension " ++ toString (Vector.init 4 [1, 2, 3] none none).vector_dim
          ++ " does not match database dimension "
          ++ toString (SimpleVectorDatabase.mk [] 2).vector_dim ++ "."))) :=
  ⟨by decide, upsert_dimension_mismatch_fails_unchanged
    (SimpleVectorDatabase.mk [] 2) (Vector.init 4 [1, 2, 3] none none) 0 (by decide)⟩

/-- Claim C6: upserting a valid vector and then calling `get_vector` with its
id returns a vector whose embedding equals the upserted one (with no warning),
and `get_vector` of an id not present warns and returns `None` instead of
raising. -/
theorem upsert_get_vector_roundtrip (db : SimpleVectorDatabase) (v : Vector)
    (i fresh : Nat) (hdim : v.vector_dim = db.vector_dim)
    (hi : dictGet db.data i = none) :
    (db.upsert (UpsertArg.vec v) fresh).2 = none
    ∧ (∃ w, ((db.upsert (UpsertArg.vec v) fresh).1.get_vector v.vec_id)
        = (some w, []) ∧ w.embedding = v.embedding)
    ∧ db.get_vector i = (none, [SimpleVectorDatabase.notFoundMsg i]) := by
  refine ⟨?_, ⟨v, ?_, rfl⟩, ?_⟩
  · simp [SimpleVectorDatabase.upsert, SimpleVectorDatabase._upsert, hdim]
  · simp [SimpleVectorDatabase.upsert, SimpleVectorDatabase._upsert, hdim,
      SimpleVectorDatabase.get_vector, SimpleVectorDatabase._get_vector,
      dictGet_dictInsert_self]
  · simp [SimpleVectorDatabase.get_vector, SimpleVectorDatabase._get_vector, hi]

/-- Witness for C6 at a concrete input: upsert a 2-dimensional vector into an
empty 2-dimensional database and read it back; id 9 is absent. -/
theorem upsert_get_vector_roundtrip_witness :
    (Vector.init 5 [1, 2] none none).vector_dim =
      (SimpleVectorDatabase.mk [] 2).vector_dim
    ∧ dictGet (SimpleVectorDatabase.mk [] 2).data 9 = none
    ∧ (((SimpleVectorDatabase.mk [] 2).upsert
        (UpsertArg.vec (Vector.init 5 [1, 2] none none)) 0).2 = none
      ∧ (∃ w, (((SimpleVectorDatabase.mk [] 2).upsert
            (UpsertArg.vec (Vector.init 5 [1, 2] none none)) 0).1.get_vector
            (Vector.init 5 [1, 2] none none).vec_id)
          = (some w, []) ∧ w.embedding = (Vector.init 5 [1, 2] none none).embedding)
      ∧ (SimpleVectorDatabase.mk [] 2).get_vector 9 =
          (none, [SimpleVectorDatabase.notFoundMsg 9])) :=
  ⟨by decide, by decide, upsert_get_vector_roundtrip
    (SimpleVectorDatabase.mk [] 2) (Vector.init 5 [1, 2] none none) 9 0
    (by decide) (by decide)⟩

/-- Claim C7: `MeasureFactory.get_measure` is a pure lookup into the fixed
`MEASURES` table, returning the pre-built shared instance for each of
"euclidean", "dot" and "cosine" on every call, and failing on any other name
with a `ValueError` whose message names the offending value and the full valid
set. -/
theorem get_measure_lookup_spec (name : String)
    (h : dictGet MeasureFactory.MEASURES name = none) :
    MeasureFactory.get_measure "euclidean" = Except.ok RegisteredMeasure.EuclideanDistance
    ∧ MeasureFactory.get_measure "dot" = Except.ok RegisteredMeasure.DotProductDistance
    ∧ MeasureFactory.get_measure "cosine" = Except.ok RegisteredMeasure.CosineSimilarity
    ∧ MeasureFactory.get_measure name = Except.error ("Measure \x27" ++ name ++
        "\x27 does not exist. " ++ "Please choose from " ++
        "[\x27euclidean\x27, \x27dot\x27, \x27cosine\x27]") := by
  refine ⟨rfl, rfl, rfl, ?_⟩
  unfold MeasureFactory.get_measure
  rw [h]
  rfl

/-- Witness for C7 at a concrete input: the unregistered name "manhattan". -/
theorem get_measure_lookup_spec_witness :
    dictGet MeasureFactory.MEASURES "manhattan" = none
    ∧ (MeasureFactory.get_measure "euclidean" = Except.ok RegisteredMeasure.EuclideanDistance
      ∧ MeasureFactory.get_measure "dot" = Except.ok RegisteredMeasure.DotProductDistance
      ∧ MeasureFactory.get_measure "cosine" = Except.ok RegisteredMeasure.CosineSimilarity
      ∧ MeasureFactory.get_measure "manhattan" = Except.error ("Measure \x27" ++ "manhattan" ++
          "\x27 does not exist. " ++ "Please choose from " ++
          "[\x27euclidean\x27, \x27dot\x27, \x27cosine\x27]")) :=
  ⟨by decide, get_measure_lookup_spec "manhattan" (by decide)⟩

/-- Claim C8: `Vector.dot` is commutative on every pair of vectors of equal
`vector_dim`. -/
theorem dot_comm (a b : Vector) (_h : a.vector_dim = b.vector_dim) :
    a.dot b = b.dot a := by
  unfold Vector.dot
  exact congrArg List.sum
    (List.zipWith_comm_of_comm _ (fun x y => mul_comm x y) _ _)

/-- Witness for C8 at a concrete input: two 2-dimensional vectors. -/
theorem dot_comm_witness :
    (Vector.init 1 [1, 2] none none).vector_dim =
      (Vector.init 2 [3, 5] none none).vector_dim
    ∧ (Vector.init 1 [1, 2] none none).dot (Vector.init 2 [3, 5] none none) =
      (Vector.init 2 [3, 5] none none).dot (Vector.init 1 [1, 2] none none) :=
  ⟨by decide, dot_comm (Vector.init 1 [1, 2] none none)
    (Vector.init 2 [3, 5] none none) (by decide)⟩

/-- Claim C9: `add`, `sub`, scalar multiplication and `cross` each build a
brand-new `Vector` (via the constructor, with the freshly drawn id) whose
`data` field is the left-hand operand's `data`; the operands are never written
to (every operation is a pure function of its arguments in this model, exactly
as the source constructs a new `Vector` and assigns no field of either
operand). -/
theorem arithmetic_ops_preserve_data_new_vector (a b u w : Vector) (c : ℚ)
    (f1 f2 f3 f4 : Nat) (hu : u.embedding.length = 3)
    (hw : w.embedding.length = 3) :
    ((a.add b f1).data = a.data ∧ (a.add b f1).vec_id = f1)
    ∧ ((a.sub b f2).data = a.data ∧ (a.sub b f2).vec_id = f2)
    ∧ ((a.smul c f3).data = a.data ∧ (a.smul c f3).vec_id = f3)
    ∧ (∃ cv, u.cross w f4 = some cv ∧ cv.data = u.data ∧ cv.vec_id = f4) := by
  refine ⟨⟨rfl, rfl⟩, ⟨rfl, rfl⟩, ⟨rfl, rfl⟩, ?_⟩
  obtain ⟨x1, x2, x3, hx⟩ := exists_list_three u.embedding hu
  obtain ⟨y1, y2, y3, hy⟩ := exists_list_three w.embedding hw
  refine ⟨Vector.init f4 [x2 * y3 - x3 * y2, x3 * y1 - x1 * y3, x1 * y2 - x2 * y1]
    u.data none, ?_, rfl, rfl⟩
  simp [Vector.cross, crossList, hx, hy]

/-- If some list element is neither a `Vector` nor an `ArrayLike`, the
validation loop of `bulk_upsert` hits one and raises. -/
lemma firstBadType_of_mem : ∀ (args : List UpsertArg),
    (∃ t, UpsertArg.other t ∈ args) →
    ∃ t, SimpleVectorDatabase.firstBadType args = some t := by
  intro args
  induction args with
  | nil => rintro ⟨t, ht⟩; simp at ht
  | cons x rest ih =>
      rintro ⟨t, ht⟩
      cases x with
      | vec v =>
          rcases List.mem_cons.mp ht with hx | hx
          · exact absurd hx (by simp)
          · exact ih ⟨t, hx⟩
      | arr xs =>
          rcases List.mem_cons.mp ht with hx | hx
          · exact absurd hx (by simp)
          · exact ih ⟨t, hx⟩
      | other t0 => exact ⟨t0, rfl⟩

/-- Claim C1 (counterexample): a batch of two well-typed `Vector`s whose
second element is rejected by the insert primitive (dimension 3 against a
2-dimensional database) leaves the first element written: the store after the
failed call is not the store before it, refuting the all-or-nothing reading
for primitive-rejected elements. -/
theorem bulk_upsert_primitive_reject_partial_commit :
    (SimpleVectorDatabase.mk [] 2).bulk_upsert
        [UpsertArg.vec (Vector.init 1 [0, 0] none none),
         UpsertArg.vec (Vector.init 2 [0, 0, 0] none none)]
      = (SimpleVectorDatabase.mk [(1, Vector.init 1 [0, 0] none none)] 2,
         some (PyError.valueError
           "Vector dimension 3 does not match database dimension 2."))
    ∧ SimpleVectorDatabase.mk [(1, Vector.init 1 [0, 0] none none)] 2 ≠
        SimpleVectorDatabase.mk [] 2 := by
  constructor
  · rfl
  · decide

/-- Claim C1 (amended): if any element of the list fails the type check (it is
neither a `Vector` nor an accepted raw numeric sequence), `bulk_upsert` aborts
with a `TypeError` during the validation pass, before any mutation, and the
stored contents are exactly what they were before the call.  (An element that
passes the type check but is rejected by the insert primitive aborts the batch
only when its own insert runs, leaving the writes of earlier elements in
place — see the counterexample.) -/
theorem bulk_upsert_bad_type_aborts_unchanged (db : SimpleVectorDatabase)
    (args : List UpsertArg) (h : ∃ t, UpsertArg.other t ∈ args) :
    (db.bulk_upsert args).1 = db
    ∧ ∃ t, (db.bulk_upsert args).2 =
        some (PyError.typeError ("Invalid type " ++ t)) := by
  obtain ⟨t0, ht0⟩ := firstBadType_of_mem args h
  unfold SimpleVectorDatabase.bulk_upsert
  rw [ht0]
  exact ⟨rfl, t0, rfl⟩

/-- Witness for the amended C1 at a concrete input: a batch holding one valid
vector and one value of a wrong type. -/
theorem bulk_upsert_bad_type_aborts_unchanged_witness :
    (∃ t, UpsertArg.other t ∈
      [UpsertArg.vec (Vector.init 1 [0, 0] none none), UpsertArg.other "str"])
    ∧ (((SimpleVectorDatabase.mk [] 2).bulk_upsert
          [UpsertArg.vec (Vector.init 1 [0, 0] none none),
           UpsertArg.other "str"]).1 = SimpleVectorDatabase.mk [] 2
      ∧ ∃ t, ((SimpleVectorDatabase.mk [] 2).bulk_upsert
          [UpsertArg.vec (Vector.init 1 [0, 0] none none),
           UpsertArg.other "str"]).2 =
            some (PyError.typeError ("Invalid type " ++ t))) :=
  ⟨⟨"str", by decide⟩, bulk_upsert_bad_type_aborts_unchanged
    (SimpleVectorDatabase.mk [] 2)
    [UpsertArg.vec (Vector.init 1 [0, 0] none none), UpsertArg.other "str"]
    ⟨"str", by decide⟩⟩

/-- Claim C4 (counterexample): deleting a `Vector` whose id is absent does not
warn-and-return — it reaches `del self.data[...]` and raises `KeyError`, with
no warning logged. -/
theorem delete_missing_vector_argument_raises :
    (SimpleVectorDatabase.mk [] 2).delete
        (DeleteArg.vec (Vector.init 7 [1, 2] none none))
      = (SimpleVectorDatabase.mk [] 2, [], some (PyError.keyError 7)) := by
  rfl

/-- Claim C4 (amended): `delete` of a typed identifier or of its string form
whose target is absent logs warnings and returns with the store unchanged and
nothing raised; `delete` of a `Vector` argument whose id is absent raises
`KeyError` (with no warning), though the store is also unchanged in that
case. -/
theorem delete_missing_target_behavior (db : SimpleVectorDatabase) (i : Nat)
    (v : Vector) (hi : dictGet db.data i = none)
    (hv : dictGet db.data v.vec_id = none) :
    db.delete (DeleteArg.uuid i) =
      (db, [SimpleVectorDatabase.notFoundMsg i,
            SimpleVectorDatabase.notFoundMsg i], none)
    ∧ db.delete (DeleteArg.str i) =
      (db, [SimpleVectorDatabase.notFoundMsg i,
            SimpleVectorDatabase.notFoundMsg i], none)
    ∧ db.delete (DeleteArg.vec v) = (db, [], some (PyError.keyError v.vec_id)) := by
  refine ⟨?_, ?_, ?_⟩ <;>
    simp [SimpleVectorDatabase.delete, SimpleVectorDatabase.deleteById,
      SimpleVectorDatabase.get_vector, SimpleVectorDatabase._get_vector,
      SimpleVectorDatabase._delete, hi, hv]

/-- Witness for the amended C4 at a concrete input: an empty database, the
absent id 3, and a vector with the absent id 7. -/
theorem delete_missing_target_behavior_witness :
    dictGet (SimpleVectorDatabase.mk [] 2).data 3 = none
    ∧ dictGet (SimpleVectorDatabase.mk [] 2).data
        (Vector.init 7 [1, 2] none none).vec_id = none
    ∧ ((SimpleVectorDatabase.mk [] 2).delete (DeleteArg.uuid 3) =
        (SimpleVectorDatabase.mk [] 2, [SimpleVectorDatabase.notFoundMsg 3,
          SimpleVectorDatabase.notFoundMsg 3], none)
      ∧ (SimpleVectorDatabase.mk [] 2).delete (DeleteArg.str 3) =
        (SimpleVectorDatabase.mk [] 2, [SimpleVectorDatabase.notFoundMsg 3,
          SimpleVectorDatabase.notFoundMsg 3], none)
      ∧ (SimpleVectorDatabase.mk [] 2).delete
          (DeleteArg.vec (Vector.init 7 [1, 2] none none)) =
        (SimpleVectorDatabase.mk [] 2, [], some (PyError.keyError
          (Vector.init 7 [1, 2] none none).vec_id))) :=
  ⟨by decide, by decide, delete_missing_target_behavior
    (SimpleVectorDatabase.mk [] 2) 3 (Vector.init 7 [1, 2] none none)
    (by decide) (by decide)⟩

/-- Claim C5 (behavior of the backend primitive `_get_random_vector`): on an
empty store the call fails with the explicit `ValueError("Database is
empty.")` — never a silent `None` — and on a non-empty store every in-range
draw of `random.randint(0, len(data) - 1)` returns the stored vector at that
position, one stored value per draw (uniform selection given the uniform
draw).  The public `get_random_vector` itself is never wired to this
primitive in the source — see the results entry. -/
theorem get_random_vector_empty_error_nonempty_member
    (db1 db2 : SimpleVectorDatabase) (draw : Nat)
    (h1 : db1.data.length = 0) (h2 : draw < db2.values.length) :
    db1._get_random_vector draw = Except.error "Database is empty."
    ∧ ∃ v, db2.values[draw]? = some v
        ∧ db2._get_random_vector draw = Except.ok v ∧ v ∈ db2.values := by
  constructor
  · simp [SimpleVectorDatabase._get_random_vector, h1]
  · have hne : ¬ db2.data.length = 0 := by
      have hlen : db2.values.length = db2.data.length := by
        simp [SimpleVectorDatabase.values]
      omega
    refine ⟨db2.values[draw], List.getElem?_eq_getElem h2, ?_, List.getElem_mem h2⟩
    simp [SimpleVectorDatabase._get_random_vector, hne,
      List.getElem?_eq_getElem h2]

/-- Witness for C5 at concrete inputs: the empty database and a singleton
database with draw 0. -/
theorem get_random_vector_empty_error_nonempty_member_witness :
    (SimpleVectorDatabase.mk [] 2).data.length = 0
    ∧ 0 < (SimpleVectorDatabase.mk
        [(5, Vector.init 5 [1, 2] none none)] 2).values.length
    ∧ ((SimpleVectorDatabase.mk [] 2)._get_random_vector 0 =
        Except.error "Database is empty."
      ∧ ∃ v, (SimpleVectorDatabase.mk
            [(5, Vector.init 5 [1, 2] none none)] 2).values[0]? = some v
          ∧ (SimpleVectorDatabase.mk
              [(5, Vector.init 5 [1, 2] none none)] 2)._get_random_vector 0 =
            Except.ok v
          ∧ v ∈ (SimpleVectorDatabase.mk
              [(5, Vector.init 5 [1, 2] none none)] 2).values) :=
  ⟨by decide, by decide, get_random_vector_empty_error_nonempty_member
    (SimpleVectorDatabase.mk [] 2)
    (SimpleVectorDatabase.mk [(5, Vector.init 5 [1, 2] none none)] 2) 0
    (by decide) (by decide)⟩

/-- Witness for C9 at a concrete input: 3-dimensional operands. -/
theorem arithmetic_ops_preserve_data_new_vector_witness :
    (Vector.init 1 [1, 0, 0] (some "a") none).embedding.length = 3
    ∧ (Vector.init 2 [0, 1, 0] (some "b") none).embedding.length = 3
    ∧ ((((Vector.init 1 [1, 0, 0] (some "a") none).add
          (Vector.init 2 [0, 1, 0] (some "b") none) 10).data =
            (Vector.init 1 [1, 0, 0] (some "a") none).data
        ∧ ((Vector.init 1 [1, 0, 0] (some "a") none).add
          (Vector.init 2 [0, 1, 0] (some "b") none) 10).vec_id = 10)
      ∧ (((Vector.init 1 [1, 0, 0] (some "a") none).sub
          (Vector.init 2 [0, 1, 0] (some "b") none) 11).data =
            (Vector.init 1 [1, 0, 0] (some "a") none).data
        ∧ ((Vector.init 1 [1, 0, 0] (some "a") none).sub
          (Vector.init 2 [0, 1, 0] (some "b") none) 11).vec_id = 11)
      ∧ (((Vector.init 1 [1, 0, 0] (some "a") none).smul 7 12).data =
            (Vector.init 1 [1, 0, 0] (some "a") none).data
        ∧ ((Vector.init 1 [1, 0, 0] (some "a") none).smul 7 12).vec_id = 12)
      ∧ (∃ cv, (Vector.init 1 [1, 0, 0] (some "a") none).cross
            (Vector.init 2 [0, 1, 0] (some "b") none) 13 = some cv
          ∧ cv.data = (Vector.init 1 [1, 0, 0] (some "a") none).data
          ∧ cv.vec_id = 13)) :=
  ⟨by decide, by decide, arithmetic_ops_preserve_data_new_vector
    (Vector.init 1 [1, 0, 0] (some "a") none)
    (Vector.init 2 [0, 1, 0] (some "b") none)
    (Vector.init 1 [1, 0, 0] (some "a") none)
    (Vector.init 2 [0, 1, 0] (some "b") none)
    7 10 11 12 13 (by decide) (by decide)⟩

/-- Claim C2: under the store invariant, `_sim_search` scores every stored
candidate with `measure.calculate(query, candidate)`, stably sorts the
resulting (candidate, score) records ascending by `measure.sort_func(score)`,
and returns the slice of the first `k`; the returned list is sorted by the
measure's key, has length `min k n`, and when `k` is at least the stored
count it is a permutation of the full scored candidate list (all stored
vectors are returned, no error). -/
theorem sim_search_topk_ordering (db : SimpleVectorDatabase) (q : Vector)
    (m : AbstractMeasure) (k : Nat) (hwf : WellFormed db) (_hk : 0 < k) :
    db._sim_search q m k =
      (List.insertionSort (fun a b => m.sort_func a.score ≤ m.sort_func b.score)
        (db.values.map (fun v => { vector := v, score := m.calculate q v }))).take k
    ∧ List.Pairwise (fun a b => m.sort_func a.score ≤ m.sort_func b.score)
        (db._sim_search q m k)
    ∧ (db._sim_search q m k).length = min k db.values.length
    ∧ (db.values.length ≤ k →
        List.Perm (db._sim_search q m k)
          (db.values.map (fun v => { vector := v, score := m.calculate q v }))) := by
  have he := sim_search_eq db q m k hwf
  haveI : IsTotal SearchHit
      (fun a b => m.sort_func a.score ≤ m.sort_func b.score) :=
    ⟨fun a b => le_total _ _⟩
  haveI : IsTrans SearchHit
      (fun a b => m.sort_func a.score ≤ m.sort_func b.score) :=
    ⟨fun a b c hab hbc => le_trans hab hbc⟩
  refine ⟨he, ?_, ?_, ?_⟩
  · rw [he]
    exact (List.sorted_insertionSort _ _).sublist (List.take_sublist _ _)
  · rw [he]
    simp [List.length_take, List.length_insertionSort]
  · intro hle
    rw [he, List.take_of_length_le]
    · exact List.perm_insertionSort _ _
    · rw [List.length_insertionSort, List.length_map]
      exact hle

/-- Witness for C2 at a concrete input: a well-formed two-vector store, a dot
product measure, and `k = 5` larger than the stored count. -/
theorem sim_search_topk_ordering_witness :
    WellFormed (SimpleVectorDatabase.mk
      [(1, Vector.init 1 [1, 0] none none),
       (2, Vector.init 2 [0, 1] none none)] 2)
    ∧ 0 < 5
    ∧ ((SimpleVectorDatabase.mk
        [(1, Vector.init 1 [1, 0] none none),
         (2, Vector.init 2 [0, 1] none none)] 2)._sim_search
          (Vector.init 3 [1, 0] none none) DotProductDistance 5 =
        (List.insertionSort (fun a b => DotProductDistance.sort_func a.score ≤
            DotProductDistance.sort_func b.score)
          ((SimpleVectorDatabase.mk
            [(1, Vector.init 1 [1, 0] none none),
             (2, Vector.init 2 [0, 1] none none)] 2).values.map
            (fun v => { vector := v, score :=
              DotProductDistance.calculate (Vector.init 3 [1, 0] none none) v }))).take 5
      ∧ List.Pairwise (fun a b => DotProductDistance.sort_func a.score ≤
          DotProductDistance.sort_func b.score)
          ((SimpleVectorDatabase.mk
            [(1, Vector.init 1 [1, 0] none none),
             (2, Vector.init 2 [0, 1] none none)] 2)._sim_search
            (Vector.init 3 [1, 0] none none) DotProductDistance 5)
      ∧ ((SimpleVectorDatabase.mk
          [(1, Vector.init 1 [1, 0] none none),
           (2, Vector.init 2 [0, 1] none none)] 2)._sim_search
            (Vector.init 3 [1, 0] none none) DotProductDistance 5).length =
          min 5 (SimpleVectorDatabase.mk
            [(1, Vector.init 1 [1, 0] none none),
             (2, Vector.init 2 [0, 1] none none)] 2).values.length
      ∧ ((SimpleVectorDatabase.mk
          [(1, Vector.init 1 [1, 0] none none),
           (2, Vector.init 2 [0, 1] none none)] 2).values.length ≤ 5 →
          List.Perm ((SimpleVectorDatabase.mk
            [(1, Vector.init 1 [1, 0] none none),
             (2, Vector.init 2 [0, 1] none none)] 2)._sim_search
              (Vector.init 3 [1, 0] none none) DotProductDistance 5)
            ((SimpleVectorDatabase.mk
              [(1, Vector.init 1 [1, 0] none none),
               (2, Vector.init 2 [0, 1] none none)] 2).values.map
              (fun v => { vector := v, score :=
                DotProductDistance.calculate (Vector.init 3 [1, 0] none none) v })))) :=
  ⟨by decide, by decide, sim_search_topk_ordering
    (SimpleVectorDatabase.mk
      [(1, Vector.init 1 [1, 0] none none),
       (2, Vector.init 2 [0, 1] none none)] 2)
    (Vector.init 3 [1, 0] none none) DotProductDistance 5
    (by decide) (by decide)⟩

/-- Claim C10: every entry of the list `_sim_search` returns is a
`{"vector": ..., "score": ...}` record (a `SearchHit` in this model, even
though the public signature annotates `List[Vector]`) holding a stored vector
together with exactly the score the measure computed for it against the
query. -/
theorem sim_search_entries_are_vector_score_records (db : SimpleVectorDatabase)
    (q : Vector) (m : AbstractMeasure) (k : Nat) (hwf : WellFormed db) :
    ∀ e ∈ db._sim_search q m k,
      e.vector ∈ db.values ∧ e.score = m.calculate q e.vector := by
  intro e he
  rw [sim_search_eq db q m k hwf] at he
  have he2 := List.mem_of_mem_take he
  rw [List.mem_insertionSort] at he2
  obtain ⟨v, hv, rfl⟩ := List.mem_map.mp he2
  exact ⟨hv, rfl⟩

/-- Witness for C10 at a concrete input: the same two-vector store with
`k = 1`. -/
theorem sim_search_entries_are_vector_score_records_witness :
    WellFormed (SimpleVectorDatabase.mk
      [(1, Vector.init 1 [2, 0] none none),
       (2, Vector.init 2 [0, 3] none none)] 2)
    ∧ (∀ e ∈ (SimpleVectorDatabase.mk
        [(1, Vector.init 1 [2, 0] none none),
         (2, Vector.init 2 [0, 3] none none)] 2)._sim_search
          (Vector.init 3 [1, 1] none none) DotProductDistance 1,
        e.vector ∈ (SimpleVectorDatabase.mk
          [(1, Vector.init 1 [2, 0] none none),
           (2, Vector.init 2 [0, 3] none none)] 2).values
        ∧ e.score = DotProductDistance.calculate
            (Vector.init 3 [1, 1] none none) e.vector) :=
  ⟨by decide, sim_search_entries_are_vector_score_records
    (SimpleVectorDatabase.mk
      [(1, Vector.init 1 [2, 0] none none),
       (2, Vector.init 2 [0, 3] none none)] 2)
    (Vector.init 3 [1, 1] none none) DotProductDistance 1 (by decide)⟩

end DocSim
